import Mathlib

/-! Pico-Macropad: the LED controller (`src/led_controller.h`) and the display driver
(`src/display.h`).

A shallow embedding of the namespace `LedController`: the four global variables become
the fields of `LedController.State`, the reading of `millis()` becomes an explicit
argument of every function that calls it, and each function returns its C++ return value
together with the state it leaves behind.

Machine arithmetic.  On the RP2040 `unsigned long`, `long` and `int` are 32 bits wide.
`millis() - last_update` is an `unsigned long` subtraction (modulo `2^32`) whose result is
converted to the signed `int time`; this is `LedController.elapsedTime`.  The luminance is
a `float` in the source, but every value stored in it is an integer of absolute value at
most 100, which a `float` holds exactly, so it is an `Int` here.
-/

namespace Arduino

/-- Modelled from the spec: the range-mapping helper `map` of the Arduino core
(declared through `Arduino.h`, which is not part of `src/`):
`map(x, in_min, in_max, out_min, out_max) =
(x - in_min) * (out_max - out_min) / (in_max - in_min) + out_min`
on `long`, with the division of C, which truncates toward zero (`Int.tdiv`). -/
def map (x in_min in_max out_min out_max : Int) : Int :=
  Int.tdiv ((x - in_min) * (out_max - out_min)) (in_max - in_min) + out_min

end Arduino

namespace LedController

/-! ## Constants (`#define`s of `led_controller.h`) -/

def AWAKE_TIME : Int := 5000
def DIMMING_TIME : Int := 1000
def STANDBY_TIME : Int := 25000
def DISABLING_TIME : Int := 500
def FULL_POWER : Int := 25
def STANDBY_POWER : Int := 7
def FULL_POWER_ROT : Int := 100
def STANDBY_POWER_ROT : Int := 40

/-! ## State -/

/-- The global variables of the namespace `LedController`. -/
structure State where
  /-- The reading of `millis()` at the last `resetTimer` (`unsigned long`). -/
  last_update : Nat
  /-- True when turned off. -/
  off : Bool
  /-- True if display on, false if display off. -/
  displayState : Bool
  /-- True if rotary leds are on, false if they are off. -/
  rotaryState : Bool
  deriving DecidableEq, Repr

/-- The values the variables are initialised with. -/
def State.initial : State :=
  { last_update := 0, off := false, displayState := false, rotaryState := false }

/-- The statement `int time = millis() - last_update;`: the subtraction is carried out on
32-bit `unsigned long` (modulo `2^32`) and the difference is converted to a 32-bit `int`
(two's complement). -/
def elapsedTime (millis last_update : Nat) : Int :=
  let d : Nat := (millis % 4294967296 + 4294967296 - last_update % 4294967296) % 4294967296
  if d < 2147483648 then (d : Int) else (d : Int) - 4294967296

/-! ## Functions -/

/-- The function `resetTimer`: stores the clock reading and returns `!off`. -/
def resetTimer (millis : Nat) (s : State) : Bool × State :=
  let s1 : State := { s with last_update := millis }
  (!s1.off, s1)

/-- The function `updateForNeoTrellis`: the luminance of the NeoTrellis leds. -/
def updateForNeoTrellis (millis : Nat) (s : State) : Int × State :=
  let time : Int := elapsedTime millis s.last_update
  if time ≥ AWAKE_TIME + DIMMING_TIME + STANDBY_TIME + DISABLING_TIME then
    (0, { s with off := true })
  else if time ≥ AWAKE_TIME + DIMMING_TIME + STANDBY_TIME then
    (Arduino.map (time - (AWAKE_TIME + DIMMING_TIME + STANDBY_TIME)) 0 DISABLING_TIME
        STANDBY_POWER 0,
      { s with off := false })
  else if time ≥ AWAKE_TIME + DIMMING_TIME then
    (STANDBY_POWER, { s with off := false })
  else if time ≥ AWAKE_TIME then
    (Arduino.map (time - AWAKE_TIME) 0 DIMMING_TIME FULL_POWER STANDBY_POWER,
      { s with off := false })
  else
    (FULL_POWER, { s with off := false })

/-- The function `updateForRotaryEncoder`: the luminance of the rotary encoder leds; it
also updates the display state and the rotary state. -/
def updateForRotaryEncoder (millis : Nat) (s : State) : Int × State :=
  let time : Int := elapsedTime millis s.last_update
  if time ≥ AWAKE_TIME + DIMMING_TIME + STANDBY_TIME + DISABLING_TIME then
    (0, { s with off := true, displayState := false, rotaryState := false })
  else if time ≥ AWAKE_TIME + DIMMING_TIME + STANDBY_TIME then
    (Arduino.map (time - (AWAKE_TIME + DIMMING_TIME + STANDBY_TIME)) 0 DISABLING_TIME
        STANDBY_POWER_ROT 0,
      { s with off := false, displayState := false, rotaryState := true })
  else if time ≥ AWAKE_TIME + DIMMING_TIME then
    (STANDBY_POWER_ROT, { s with off := false, displayState := false, rotaryState := true })
  else if time ≥ AWAKE_TIME then
    (Arduino.map (time - AWAKE_TIME) 0 DIMMING_TIME FULL_POWER_ROT STANDBY_POWER_ROT,
      { s with off := false, displayState := true, rotaryState := true })
  else
    (FULL_POWER_ROT, { s with off := false, displayState := true, rotaryState := true })

/-- The function `getRotaryState`. -/
def getRotaryState (s : State) : Bool := s.rotaryState

/-- The function `getDisplayState`. -/
def getDisplayState (s : State) : Bool := s.displayState

/-- Modelled from the spec: one tick of the control loop (`evaluateFrame` in the spec; the
loop that calls the evaluators is not part of `src/`): both evaluators run at the same
clock reading, `updateForNeoTrellis` first.  The result is the pair of luminances
(NeoTrellis, rotary encoder) and the state left behind. -/
def evaluateFrame (millis : Nat) (s : State) : (Int × Int) × State :=
  let r1 := updateForNeoTrellis millis s
  let r2 := updateForRotaryEncoder millis r1.2
  ((r1.1, r2.1), r2.2)

/-- Modelled from the spec: the same tick with the two evaluators in the other order,
`updateForRotaryEncoder` first. -/
def evaluateFrameRotaryFirst (millis : Nat) (s : State) : (Int × Int) × State :=
  let r2 := updateForRotaryEncoder millis s
  let r1 := updateForNeoTrellis millis r2.2
  ((r1.1, r2.1), r1.2)

/-- The calls a client can make on the controller, each with the reading of `millis()` at
the time of the call. -/
inductive Op where
  | resetTimer (millis : Nat)
  | updateForNeoTrellis (millis : Nat)
  | updateForRotaryEncoder (millis : Nat)
  deriving DecidableEq, Repr

/-- The state left by one call. -/
def Op.step (s : State) : Op → State
  | .resetTimer millis => (LedController.resetTimer millis s).2
  | .updateForNeoTrellis millis => (LedController.updateForNeoTrellis millis s).2
  | .updateForRotaryEncoder millis => (LedController.updateForRotaryEncoder millis s).2

/-- The state left by a sequence of calls, the first call first. -/
def run (ops : List Op) (s : State) : State :=
  ops.foldl Op.step s

/-- The exact linear interpolation the spec describes for a window of length `in_max`:
the point of the straight line from `out_min` (at 0) to `out_max` (at `in_max`) at the
offset `x`, as a rational number, with no rounding. -/
def exactInterpolation (x in_max out_min out_max : Int) : ℚ :=
  (out_min : ℚ) + (x : ℚ) * ((out_max : ℚ) - (out_min : ℚ)) / (in_max : ℚ)

end LedController

/-! # The display driver (`src/display.h`) -/

namespace Config

/-- Modelled from the spec: `config.h` is not part of `src/`; of a button `display.h`
uses the field `name`, a character array, given here by its characters `name[0]`,
`name[1]`, ... -/
structure Button where
  name : Nat → Int

/-- Modelled from the spec: `config.h` is not part of `src/`; of `Config::App`,
`display.h` uses the fields `name` (a character array) and `buttons` (the 16 buttons). -/
structure App where
  name : Nat → Int
  buttons : Nat → Button

end Config

namespace Display

/-- The calls `display.h` makes on the `Adafruit_SSD1306` object `display`, with their
arguments.  A `char *` argument is given by the characters it points to. -/
inductive Call where
  | clearDisplay
  | setCursor (x y : Int)
  | printString (text : Nat → Int)
  | printInt (n : Int)
  | drawFastVLine (x y h color : Int)
  | drawFastHLine (x y w color : Int)
  | drawPixel (x y color : Int)
  | display

/-- Whether a call puts something on the screen buffer (text, a line or a pixel). -/
def Call.draws : Call → Bool
  | .printString _ => true
  | .printInt _ => true
  | .drawFastVLine _ _ _ _ => true
  | .drawFastHLine _ _ _ _ => true
  | .drawPixel _ _ _ => true
  | _ => false

/-- The loop of `get_x_coordinate`, `for (int i = 0; i < 24; i++)`, which leaves through
`break` at the first zero character; `fuel` bounds the number of iterations (24 are
enough, see `count_fuel`). -/
def get_x_coordinate.count (text : Nat → Int) : Nat → Nat → Int → Int
  | 0, _, number_of_chars => number_of_chars
  | fuel + 1, i, number_of_chars =>
    if i < 24 then
      if text i = 0 then number_of_chars
      else get_x_coordinate.count text fuel (i + 1) (number_of_chars + 1)
    else number_of_chars

/-- The value a 32-bit `int` holds after an operation whose exact result is `x`: `x`
itself inside `[-2^31, 2^31)`, and `x` reduced modulo `2^32` into that range (two's
complement) when the operation overflows. -/
def wrapInt32 (x : Int) : Int :=
  (x + 2147483648) % 4294967296 - 2147483648

/-- The function `get_x_coordinate`: the x-coordinate of the left end of `text` when
its middle is at `middle`; a character is 6 pixels wide.  `number_of_chars` is at most 24
and `length` at most 144, so only the final subtraction can leave the range of `int`; it
is carried out at width 32. -/
def get_x_coordinate (text : Nat → Int) (middle : Int) : Int :=
  let number_of_chars : Int := get_x_coordinate.count text 24 0 0
  let length : Int := number_of_chars * 6
  wrapInt32 (middle - Int.tdiv length 2)

/-- The variables of the namespace `Display`, and the calls made on `display` so far
(oldest first). -/
structure State where
  prev_enabled : Bool
  prev_app : Int
  calls : List Call

/-- The string literal `"0"`. -/
def zeroLiteral : Nat → Int := fun i => if i = 0 then 48 else 0

/-- The two nested loops of `update` that draw the 16 button names. -/
def buttonNameCalls (app : Config.App) : List Call :=
  (List.range 4).flatMap fun i =>
    (List.range 4).flatMap fun j =>
      let name := (app.buttons (i * 4 + j)).name
      let x : Int := 32 * (j : Int) + 16
      let x : Int := get_x_coordinate name x
      let y : Int := 12 * (i : Int) + 18
      [Call.setCursor x y, Call.printString name]

/-- The calls of the first branch of `update`, which draws the screen of the app
`cur_app`: number, title, speaker symbol, separating line and button names. -/
def appScreenCalls (apps : Int → Config.App) (cur_app : Int) : List Call :=
  let app := apps cur_app
  [Call.clearDisplay, Call.setCursor 0 2]
    ++ (if cur_app < 10 then [Call.printString zeroLiteral] else [])
    ++ [Call.printInt cur_app,
        Call.setCursor (get_x_coordinate app.name 64) 2,
        Call.printString app.name,
        Call.drawFastVLine 117 4 2 1,
        Call.drawFastVLine 118 4 2 1,
        Call.drawFastVLine 119 3 4 1,
        Call.drawFastVLine 120 2 6 1,
        Call.drawFastVLine 121 1 8 1,
        Call.drawFastVLine 123 4 2 1,
        Call.drawPixel 124 2 1,
        Call.drawPixel 124 7 1,
        Call.drawFastVLine 125 3 4 1,
        Call.drawPixel 126 1 1,
        Call.drawPixel 126 8 1,
        Call.drawFastVLine 127 2 6 1,
        Call.drawFastHLine 0 14 128 1]
    ++ buttonNameCalls app
    ++ [Call.display]

/-- The function `update`; `apps` is the table `Config::apps` of `config.h`. -/
def update (apps : Int → Config.App) (cur_app : Int) (enabled : Bool) (s : State) : State :=
  let s1 : State :=
    if (enabled == true && s.prev_enabled == false) || (cur_app != s.prev_app) then
      { s with calls := s.calls ++ appScreenCalls apps cur_app }
    else if enabled == false && s.prev_enabled == true then
      { s with calls := s.calls ++ [Call.clearDisplay, Call.display] }
    else s
  { s1 with prev_app := cur_app, prev_enabled := enabled }

/-- An app whose name and button names are all empty. -/
def emptyApp : Config.App :=
  { name := fun _ => 0, buttons := fun _ => { name := fun _ => 0 } }

end Display

namespace LedController

/-! ## Arithmetic helpers -/

/-- A downward map from `c` to `d` over `[0, b)`: for `0 ≤ x`, `d ≤ c` and `0 < b` the
truncating quotient of the non-positive product is the negated floor quotient. -/
theorem map_down (x b c d : Int) (hx : 0 ≤ x) (hb : 0 < b) (hcd : d ≤ c) :
    Arduino.map x 0 b c d = c - (x * (c - d)) / b := by
  unfold Arduino.map
  have h1 : (x - 0) * (d - c) = -(x * (c - d)) := by ring
  have h2 : 0 ≤ x * (c - d) := Int.mul_nonneg hx (by omega)
  rw [h1, Int.neg_tdiv, Int.sub_zero, Int.tdiv_eq_ediv h2 (by omega)]
  omega

/-- At the four calls of `map` (`0 ≤ x < 1000`, powers between 0 and 100) the product
and the sum computed by `map` stay far inside the range of a 32-bit `long`, so the
arithmetic of the model, which is unbounded, is the arithmetic of the machine. -/
theorem map_fits_long (x b c d : Int) (hx : 0 ≤ x) (hxb : x < b) (hb : b ≤ 1000)
    (hc : 0 ≤ c ∧ c ≤ 100) (hd : 0 ≤ d ∧ d ≤ c) :
    -2147483648 ≤ (x - 0) * (d - c) ∧ (x - 0) * (d - c) < 2147483648 ∧
      -2147483648 ≤ Arduino.map x 0 b c d ∧ Arduino.map x 0 b c d < 2147483648 := by
  rw [map_down x b c d hx (by omega) hd.2]
  have h1 : (x - 0) * (d - c) = -(x * (c - d)) := by ring
  have h2 : 0 ≤ x * (c - d) := Int.mul_nonneg hx (by omega)
  have h3 : x * (c - d) ≤ 1000 * 100 :=
    Int.mul_le_mul (by omega) (by omega) (by omega) (by omega)
  have h4 : 0 ≤ x * (c - d) / b := Int.ediv_nonneg h2 (by omega)
  have h5 : x * (c - d) / b ≤ x * (c - d) := Int.ediv_le_self _ h2
  rw [h1]
  omega

/-- Every non-negative value below `2^31` is the elapsed time of some clock reading. -/
theorem elapsedTime_of_lt (t : Nat) (l : Nat) (ht : t < 2147483648) (hl : l < 4294967296) :
    elapsedTime (l + t) l = (t : Int) := by
  unfold elapsedTime
  simp only
  have : (((l + t) % 4294967296 + 4294967296 - l % 4294967296) % 4294967296) = t := by omega
  rw [this]
  simp [ht]

/-- The elapsed time is a 32-bit signed value. -/
theorem elapsedTime_range (millis last_update : Nat) :
    -2147483648 ≤ elapsedTime millis last_update ∧ elapsedTime millis last_update < 2147483648 := by
  unfold elapsedTime
  simp only
  split <;> omega

/-! ## The five branches of the two evaluators -/

theorem neo_disabled (millis : Nat) (s : State) (h : 31500 ≤ elapsedTime millis s.last_update) :
    updateForNeoTrellis millis s = (0, { s with off := true }) := by
  unfold updateForNeoTrellis
  simp only [AWAKE_TIME, DIMMING_TIME, STANDBY_TIME, DISABLING_TIME]
  rw [if_pos (by omega)]

theorem neo_disabling (millis : Nat) (s : State) (h1 : 31000 ≤ elapsedTime millis s.last_update)
    (h2 : elapsedTime millis s.last_update < 31500) :
    updateForNeoTrellis millis s =
      (Arduino.map (elapsedTime millis s.last_update - 31000) 0 500 7 0,
        { s with off := false }) := by
  unfold updateForNeoTrellis
  simp only [AWAKE_TIME, DIMMING_TIME, STANDBY_TIME, DISABLING_TIME, STANDBY_POWER]
  rw [if_neg (by omega), if_pos (by omega)]
  rfl

theorem neo_standby (millis : Nat) (s : State) (h1 : 6000 ≤ elapsedTime millis s.last_update)
    (h2 : elapsedTime millis s.last_update < 31000) :
    updateForNeoTrellis millis s = (7, { s with off := false }) := by
  unfold updateForNeoTrellis
  simp only [AWAKE_TIME, DIMMING_TIME, STANDBY_TIME, DISABLING_TIME, STANDBY_POWER]
  rw [if_neg (by omega), if_neg (by omega), if_pos (by omega)]

theorem neo_dimming (millis : Nat) (s : State) (h1 : 5000 ≤ elapsedTime millis s.last_update)
    (h2 : elapsedTime millis s.last_update < 6000) :
    updateForNeoTrellis millis s =
      (Arduino.map (elapsedTime millis s.last_update - 5000) 0 1000 25 7,
        { s with off := false }) := by
  unfold updateForNeoTrellis
  simp only [AWAKE_TIME, DIMMING_TIME, STANDBY_TIME, DISABLING_TIME, STANDBY_POWER, FULL_POWER]
  rw [if_neg (by omega), if_neg (by omega), if_neg (by omega), if_pos (by omega)]

theorem neo_awake (millis : Nat) (s : State) (h : elapsedTime millis s.last_update < 5000) :
    updateForNeoTrellis millis s = (25, { s with off := false }) := by
  unfold updateForNeoTrellis
  simp only [AWAKE_TIME, DIMMING_TIME, STANDBY_TIME, DISABLING_TIME, FULL_POWER]
  rw [if_neg (by omega), if_neg (by omega), if_neg (by omega), if_neg (by omega)]

theorem rot_disabled (millis : Nat) (s : State) (h : 31500 ≤ elapsedTime millis s.last_update) :
    updateForRotaryEncoder millis s =
      (0, { s with off := true, displayState := false, rotaryState := false }) := by
  unfold updateForRotaryEncoder
  simp only [AWAKE_TIME, DIMMING_TIME, STANDBY_TIME, DISABLING_TIME]
  rw [if_pos (by omega)]

theorem rot_disabling (millis : Nat) (s : State) (h1 : 31000 ≤ elapsedTime millis s.last_update)
    (h2 : elapsedTime millis s.last_update < 31500) :
    updateForRotaryEncoder millis s =
      (Arduino.map (elapsedTime millis s.last_update - 31000) 0 500 40 0,
        { s with off := false, displayState := false, rotaryState := true }) := by
  unfold updateForRotaryEncoder
  simp only [AWAKE_TIME, DIMMING_TIME, STANDBY_TIME, DISABLING_TIME, STANDBY_POWER_ROT]
  rw [if_neg (by omega), if_pos (by omega)]
  rfl

theorem rot_standby (millis : Nat) (s : State) (h1 : 6000 ≤ elapsedTime millis s.last_update)
    (h2 : elapsedTime millis s.last_update < 31000) :
    updateForRotaryEncoder millis s =
      (40, { s with off := false, displayState := false, rotaryState := true }) := by
  unfold updateForRotaryEncoder
  simp only [AWAKE_TIME, DIMMING_TIME, STANDBY_TIME, DISABLING_TIME, STANDBY_POWER_ROT]
  rw [if_neg (by omega), if_neg (by omega), if_pos (by omega)]

theorem rot_dimming (millis : Nat) (s : State) (h1 : 5000 ≤ elapsedTime millis s.last_update)
    (h2 : elapsedTime millis s.last_update < 6000) :
    updateForRotaryEncoder millis s =
      (Arduino.map (elapsedTime millis s.last_update - 5000) 0 1000 100 40,
        { s with off := false, displayState := true, rotaryState := true }) := by
  unfold updateForRotaryEncoder
  simp only [AWAKE_TIME, DIMMING_TIME, STANDBY_TIME, DISABLING_TIME, STANDBY_POWER_ROT,
    FULL_POWER_ROT]
  rw [if_neg (by omega), if_neg (by omega), if_neg (by omega), if_pos (by omega)]

theorem rot_awake (millis : Nat) (s : State) (h : elapsedTime millis s.last_update < 5000) :
    updateForRotaryEncoder millis s =
      (100, { s with off := false, displayState := true, rotaryState := true }) := by
  unfold updateForRotaryEncoder
  simp only [AWAKE_TIME, DIMMING_TIME, STANDBY_TIME, DISABLING_TIME, FULL_POWER_ROT]
  rw [if_neg (by omega), if_neg (by omega), if_neg (by omega), if_neg (by omega)]

/-! ## Closed forms of the two luminance curves -/

/-- The luminance of `updateForNeoTrellis` written with floor division. -/
theorem neo_luminance_closed (millis : Nat) (s : State) :
    (updateForNeoTrellis millis s).1 =
      if elapsedTime millis s.last_update < 5000 then 25
      else if elapsedTime millis s.last_update < 6000 then
        25 - ((elapsedTime millis s.last_update - 5000) * 18) / 1000
      else if elapsedTime millis s.last_update < 31000 then 7
      else if elapsedTime millis s.last_update < 31500 then
        7 - ((elapsedTime millis s.last_update - 31000) * 7) / 500
      else 0 := by
  by_cases h1 : elapsedTime millis s.last_update < 5000
  · rw [neo_awake millis s h1, if_pos h1]
  by_cases h2 : elapsedTime millis s.last_update < 6000
  · rw [neo_dimming millis s (by omega) h2, if_neg h1, if_pos h2]
    show Arduino.map _ 0 1000 25 7 = _
    rw [map_down _ _ _ _ (by omega) (by omega) (by omega)]
    omega
  by_cases h3 : elapsedTime millis s.last_update < 31000
  · rw [neo_standby millis s (by omega) h3, if_neg h1, if_neg h2, if_pos h3]
  by_cases h4 : elapsedTime millis s.last_update < 31500
  · rw [neo_disabling millis s (by omega) h4, if_neg h1, if_neg h2, if_neg h3, if_pos h4]
    show Arduino.map _ 0 500 7 0 = _
    rw [map_down _ _ _ _ (by omega) (by omega) (by omega)]
    omega
  · rw [neo_disabled millis s (by omega), if_neg h1, if_neg h2, if_neg h3, if_neg h4]

/-- The luminance of `updateForRotaryEncoder` written with floor division. -/
theorem rot_luminance_closed (millis : Nat) (s : State) :
    (updateForRotaryEncoder millis s).1 =
      if elapsedTime millis s.last_update < 5000 then 100
      else if elapsedTime millis s.last_update < 6000 then
        100 - ((elapsedTime millis s.last_update - 5000) * 60) / 1000
      else if elapsedTime millis s.last_update < 31000 then 40
      else if elapsedTime millis s.last_update < 31500 then
        40 - ((elapsedTime millis s.last_update - 31000) * 40) / 500
      else 0 := by
  by_cases h1 : elapsedTime millis s.last_update < 5000
  · rw [rot_awake millis s h1, if_pos h1]
  by_cases h2 : elapsedTime millis s.last_update < 6000
  · rw [rot_dimming millis s (by omega) h2, if_neg h1, if_pos h2]
    show Arduino.map _ 0 1000 100 40 = _
    rw [map_down _ _ _ _ (by omega) (by omega) (by omega)]
    omega
  by_cases h3 : elapsedTime millis s.last_update < 31000
  · rw [rot_standby millis s (by omega) h3, if_neg h1, if_neg h2, if_pos h3]
  by_cases h4 : elapsedTime millis s.last_update < 31500
  · rw [rot_disabling millis s (by omega) h4, if_neg h1, if_neg h2, if_neg h3, if_pos h4]
    show Arduino.map _ 0 500 40 0 = _
    rw [map_down _ _ _ _ (by omega) (by omega) (by omega)]
    omega
  · rw [rot_disabled millis s (by omega), if_neg h1, if_neg h2, if_neg h3, if_neg h4]

/-! ## The luminance curve -/

/-- C1: for every elapsed time `t ≥ 0` (`t` the value of `int time = millis() - last_update`),
`updateForNeoTrellis` (full 25, standby 7) and `updateForRotaryEncoder` (full 100,
standby 40) return: the full power if `t < 5000`; `map(t-5000, 0, 1000, full, standby)` if
`5000 ≤ t < 6000`; the standby power if `6000 ≤ t < 31000`;
`map(t-31000, 0, 500, standby, 0)` if `31000 ≤ t < 31500`; `0` if `31500 ≤ t`, where
`map(x, a, b, c, d) = (x-a)*(d-c)/(b-a) + c` with the division truncating toward zero.
The five windows cover `[0, ∞)` and no two of them overlap. -/
theorem luminance_piecewise (millis : Nat) (s : State) (t : Int)
    (ht : elapsedTime millis s.last_update = t) (h0 : 0 ≤ t) :
    ((t < 5000 →
        (updateForNeoTrellis millis s).1 = 25 ∧ (updateForRotaryEncoder millis s).1 = 100) ∧
      (5000 ≤ t ∧ t < 6000 →
        (updateForNeoTrellis millis s).1
            = Int.tdiv ((t - 5000 - 0) * (7 - 25)) (1000 - 0) + 25 ∧
          (updateForRotaryEncoder millis s).1
            = Int.tdiv ((t - 5000 - 0) * (40 - 100)) (1000 - 0) + 100) ∧
      (6000 ≤ t ∧ t < 31000 →
        (updateForNeoTrellis millis s).1 = 7 ∧ (updateForRotaryEncoder millis s).1 = 40) ∧
      (31000 ≤ t ∧ t < 31500 →
        (updateForNeoTrellis millis s).1
            = Int.tdiv ((t - 31000 - 0) * (0 - 7)) (500 - 0) + 7 ∧
          (updateForRotaryEncoder millis s).1
            = Int.tdiv ((t - 31000 - 0) * (0 - 40)) (500 - 0) + 40) ∧
      (31500 ≤ t →
        (updateForNeoTrellis millis s).1 = 0 ∧ (updateForRotaryEncoder millis s).1 = 0)) ∧
    ((t < 5000 ∨ (5000 ≤ t ∧ t < 6000) ∨ (6000 ≤ t ∧ t < 31000) ∨
        (31000 ≤ t ∧ t < 31500) ∨ 31500 ≤ t) ∧
      ¬ (t < 5000 ∧ (5000 ≤ t ∧ t < 6000)) ∧ ¬ (t < 5000 ∧ (6000 ≤ t ∧ t < 31000)) ∧
      ¬ (t < 5000 ∧ (31000 ≤ t ∧ t < 31500)) ∧ ¬ (t < 5000 ∧ 31500 ≤ t) ∧
      ¬ ((5000 ≤ t ∧ t < 6000) ∧ (6000 ≤ t ∧ t < 31000)) ∧
      ¬ ((5000 ≤ t ∧ t < 6000) ∧ (31000 ≤ t ∧ t < 31500)) ∧
      ¬ ((5000 ≤ t ∧ t < 6000) ∧ 31500 ≤ t) ∧
      ¬ ((6000 ≤ t ∧ t < 31000) ∧ (31000 ≤ t ∧ t < 31500)) ∧
      ¬ ((6000 ≤ t ∧ t < 31000) ∧ 31500 ≤ t) ∧
      ¬ ((31000 ≤ t ∧ t < 31500) ∧ 31500 ≤ t)) := by
  subst ht
  refine ⟨⟨?_, ?_, ?_, ?_, ?_⟩, ?_⟩
  · intro h
    rw [neo_awake millis s h, rot_awake millis s h]
    exact ⟨rfl, rfl⟩
  · intro h
    rw [neo_dimming millis s h.1 h.2, rot_dimming millis s h.1 h.2]
    exact ⟨rfl, rfl⟩
  · intro h
    rw [neo_standby millis s h.1 h.2, rot_standby millis s h.1 h.2]
    exact ⟨rfl, rfl⟩
  · intro h
    rw [neo_disabling millis s h.1 h.2, rot_disabling millis s h.1 h.2]
    exact ⟨rfl, rfl⟩
  · intro h
    rw [neo_disabled millis s h, rot_disabled millis s h]
    exact ⟨rfl, rfl⟩
  · omega

/-- Witness of C1: the clock at 5500 ms with the last interaction at 0 ms, which falls in
the dimming window. -/
theorem luminance_piecewise_witness :
    (updateForNeoTrellis 5500 State.initial).1 = 16 ∧
      (updateForRotaryEncoder 5500 State.initial).1 = 70 := by
  have h := (luminance_piecewise 5500 State.initial 5500 (by decide) (by decide)).1.2.1
    ⟨by decide, by decide⟩
  exact ⟨h.1.trans (by decide), h.2.trans (by decide)⟩

/-- C2: on each of the two tracks, for all elapsed times `0 ≤ t1 ≤ t2` (anywhere on the time
axis, across the stage boundaries too) the luminance returned at `t2` is at most the
luminance returned at `t1`. -/
theorem luminance_antitone (millis1 millis2 : Nat) (s1 s2 : State)
    (_h0 : 0 ≤ elapsedTime millis1 s1.last_update)
    (h12 : elapsedTime millis1 s1.last_update ≤ elapsedTime millis2 s2.last_update) :
    (updateForNeoTrellis millis2 s2).1 ≤ (updateForNeoTrellis millis1 s1).1 ∧
      (updateForRotaryEncoder millis2 s2).1 ≤ (updateForRotaryEncoder millis1 s1).1 := by
  rw [neo_luminance_closed millis1 s1, neo_luminance_closed millis2 s2,
    rot_luminance_closed millis1 s1, rot_luminance_closed millis2 s2]
  constructor <;> split_ifs <;> omega

/-- Witness of C2: 5400 ms and 31200 ms after an interaction at 0 ms. -/
theorem luminance_antitone_witness :
    (updateForNeoTrellis 31200 State.initial).1 ≤ (updateForNeoTrellis 5400 State.initial).1 ∧
      (updateForRotaryEncoder 31200 State.initial).1
        ≤ (updateForRotaryEncoder 5400 State.initial).1 :=
  luminance_antitone 5400 31200 State.initial State.initial (by decide) (by decide)

/-! ## The interaction gate -/

/-- C3: `resetTimer` called at the clock reading `now` returns the negation of `off` as it
was before the call, and leaves the state unchanged except that `last_update` is `now`:
`off`, `displayState` and `rotaryState` keep their values. -/
theorem resetTimer_frame (now : Nat) (s : State) :
    (resetTimer now s).1 = (!s.off) ∧
      (resetTimer now s).2 = { s with last_update := now } ∧
      (resetTimer now s).2.last_update = now ∧
      (resetTimer now s).2.off = s.off ∧
      (resetTimer now s).2.displayState = s.displayState ∧
      (resetTimer now s).2.rotaryState = s.rotaryState :=
  ⟨rfl, rfl, rfl, rfl, rfl, rfl⟩

/-- The `off` flag after `updateForNeoTrellis`. -/
theorem neo_off (millis : Nat) (s : State) :
    (updateForNeoTrellis millis s).2.off = decide (31500 ≤ elapsedTime millis s.last_update) := by
  by_cases h1 : elapsedTime millis s.last_update < 5000
  · rw [neo_awake millis s h1]; simp; omega
  by_cases h2 : elapsedTime millis s.last_update < 6000
  · rw [neo_dimming millis s (by omega) h2]; simp; omega
  by_cases h3 : elapsedTime millis s.last_update < 31000
  · rw [neo_standby millis s (by omega) h3]; simp; omega
  by_cases h4 : elapsedTime millis s.last_update < 31500
  · rw [neo_disabling millis s (by omega) h4]; simp; omega
  · rw [neo_disabled millis s (by omega)]; simp; omega

/-- The three flags after `updateForRotaryEncoder`. -/
theorem rot_flags (millis : Nat) (s : State) :
    (updateForRotaryEncoder millis s).2.off
        = decide (31500 ≤ elapsedTime millis s.last_update) ∧
      (updateForRotaryEncoder millis s).2.displayState
        = decide (elapsedTime millis s.last_update < 6000) ∧
      (updateForRotaryEncoder millis s).2.rotaryState
        = decide (elapsedTime millis s.last_update < 31500) := by
  by_cases h1 : elapsedTime millis s.last_update < 5000
  · rw [rot_awake millis s h1]; simp; omega
  by_cases h2 : elapsedTime millis s.last_update < 6000
  · rw [rot_dimming millis s (by omega) h2]; simp; omega
  by_cases h3 : elapsedTime millis s.last_update < 31000
  · rw [rot_standby millis s (by omega) h3]; simp; omega
  by_cases h4 : elapsedTime millis s.last_update < 31500
  · rw [rot_disabling millis s (by omega) h4]; simp; omega
  · rw [rot_disabled millis s (by omega)]; simp; omega

/-- Neither evaluator writes `last_update`. -/
theorem neo_last_update (millis : Nat) (s : State) :
    (updateForNeoTrellis millis s).2.last_update = s.last_update := by
  unfold updateForNeoTrellis
  simp only
  split_ifs <;> rfl

theorem rot_last_update (millis : Nat) (s : State) :
    (updateForRotaryEncoder millis s).2.last_update = s.last_update := by
  unfold updateForRotaryEncoder
  simp only
  split_ifs <;> rfl

/-! ## Wake gating -/

/-- C4, as stated, fails: after `resetTimer` at 0 and a frame evaluation at 31501 the flag
`off` is true and `resetTimer` at 31502 returns false, but a `resetTimer` at 31503 issued
with no other operation in between does not return true: it returns false again. -/
theorem wake_gating_counterexample :
    (evaluateFrame 31501 (resetTimer 0 State.initial).2).2.off = true ∧
      (resetTimer 31502 (evaluateFrame 31501 (resetTimer 0 State.initial).2).2).1 = false ∧
      ¬ ((resetTimer 31503
            (resetTimer 31502 (evaluateFrame 31501 (resetTimer 0 State.initial).2).2).2).1
          = true) := by
  decide

/-- C4, amended: after `resetTimer` at 0 and a frame evaluation at 31501 the flag `off` is
true, the following `resetTimer` at 31502 returns false, and a subsequent `resetTimer` at
31503 returns true once a frame evaluation has run in between (here at 31502).  In general,
in every state in which `off` is true and for all clock readings `now1`, `now2`:
`resetTimer` at `now1` returns false; the immediately following `resetTimer` at `now2`
returns false as well, since `resetTimer` never writes `off`; and when an evaluator (either
one, or the whole frame) runs in between at a clock reading `m` whose elapsed time since
`now1` is below 31500, the following `resetTimer` at `now2` returns true. -/
theorem wake_gating_after_evaluation (s : State) (now1 now2 m : Nat) (hoff : s.off = true) :
    ((evaluateFrame 31501 (resetTimer 0 State.initial).2).2.off = true ∧
      (resetTimer 31502 (evaluateFrame 31501 (resetTimer 0 State.initial).2).2).1 = false ∧
      (resetTimer 31503 (evaluateFrame 31502
          (resetTimer 31502 (evaluateFrame 31501 (resetTimer 0 State.initial).2).2).2).2).1
        = true) ∧
    (resetTimer now1 s).1 = false ∧
    (resetTimer now2 (resetTimer now1 s).2).1 = false ∧
    (elapsedTime m now1 < 31500 →
      (resetTimer now2 (updateForNeoTrellis m (resetTimer now1 s).2).2).1 = true ∧
      (resetTimer now2 (updateForRotaryEncoder m (resetTimer now1 s).2).2).1 = true ∧
      (resetTimer now2 (evaluateFrame m (resetTimer now1 s).2).2).1 = true ∧
      (resetTimer now2 (evaluateFrameRotaryFirst m (resetTimer now1 s).2).2).1 = true) := by
  refine ⟨by decide, ?_, ?_, ?_⟩
  · simp [resetTimer, hoff]
  · simp [resetTimer, hoff]
  · intro ht
    have hl : (resetTimer now1 s).2.last_update = now1 := rfl
    have hn : ¬ (31500 ≤ elapsedTime m now1) := by omega
    refine ⟨?_, ?_, ?_, ?_⟩
    · show (!(updateForNeoTrellis m (resetTimer now1 s).2).2.off) = true
      rw [neo_off, hl]
      simp [hn]
    · show (!(updateForRotaryEncoder m (resetTimer now1 s).2).2.off) = true
      rw [(rot_flags _ _).1, hl]
      simp [hn]
    · show (!(updateForRotaryEncoder m (updateForNeoTrellis m (resetTimer now1 s).2).2).2.off)
        = true
      rw [(rot_flags _ _).1, neo_last_update, hl]
      simp [hn]
    · show (!(updateForNeoTrellis m (updateForRotaryEncoder m (resetTimer now1 s).2).2).2.off)
        = true
      rw [neo_off, rot_last_update, hl]
      simp [hn]

/-- Witness of the amended C4: the scenario of the claim, in the state left by the frame
evaluation at 31501, with the touches at 31502 and 31503 and an evaluation at 31502. -/
theorem wake_gating_after_evaluation_witness :
    (resetTimer 31502 (evaluateFrame 31501 (resetTimer 0 State.initial).2).2).1 = false ∧
      (resetTimer 31503 (evaluateFrame 31502
          (resetTimer 31502 (evaluateFrame 31501 (resetTimer 0 State.initial).2).2).2).2).1
        = true :=
  ⟨(wake_gating_after_evaluation (evaluateFrame 31501 (resetTimer 0 State.initial).2).2
      31502 31503 31502 (by decide)).2.1,
    ((wake_gating_after_evaluation (evaluateFrame 31501 (resetTimer 0 State.initial).2).2
      31502 31503 31502 (by decide)).2.2.2 (by decide)).2.2.1⟩

/-! ## The stages and the flags -/

/-- C6: after a frame evaluation (both evaluators at the same elapsed time `t ≥ 0`, in
either order) `off` is true if and only if `t ≥ 31500`; in the Awake, Dimming, Standby and
Disabling stages (`t < 31500`) it is false. -/
theorem off_iff_disabled (millis : Nat) (s : State) (t : Int)
    (ht : elapsedTime millis s.last_update = t) (_h0 : 0 ≤ t) :
    ((evaluateFrame millis s).2.off = true ↔ 31500 ≤ t) ∧
      ((evaluateFrameRotaryFirst millis s).2.off = true ↔ 31500 ≤ t) ∧
      (t < 31500 → (evaluateFrame millis s).2.off = false ∧
        (evaluateFrameRotaryFirst millis s).2.off = false) := by
  subst ht
  have h1 : (evaluateFrame millis s).2.off
      = decide (31500 ≤ elapsedTime millis s.last_update) := by
    show (updateForRotaryEncoder millis (updateForNeoTrellis millis s).2).2.off = _
    rw [(rot_flags _ _).1, neo_last_update]
  have h2 : (evaluateFrameRotaryFirst millis s).2.off
      = decide (31500 ≤ elapsedTime millis s.last_update) := by
    show (updateForNeoTrellis millis (updateForRotaryEncoder millis s).2).2.off = _
    rw [neo_off, rot_last_update]
  rw [h1, h2]
  refine ⟨by simp, by simp, ?_⟩
  intro h
  simp
  omega

/-- Witness of C6: a frame 31500 ms after an interaction at 0 ms, in both orders. -/
theorem off_iff_disabled_witness :
    (evaluateFrame 31500 State.initial).2.off = true ∧
      (evaluateFrameRotaryFirst 31500 State.initial).2.off = true :=
  ⟨(off_iff_disabled 31500 State.initial 31500 (by decide) (by decide)).1.2 (by decide),
    (off_iff_disabled 31500 State.initial 31500 (by decide) (by decide)).2.1.2 (by decide)⟩

/-- C7: for every elapsed time `t ≥ 0`, after `updateForRotaryEncoder` runs at `t`,
`getDisplayState` returns true if and only if `t < 6000`. -/
theorem displayState_iff (millis : Nat) (s : State) (t : Int)
    (ht : elapsedTime millis s.last_update = t) (_h0 : 0 ≤ t) :
    getDisplayState (updateForRotaryEncoder millis s).2 = true ↔ t < 6000 := by
  subst ht
  show (updateForRotaryEncoder millis s).2.displayState = true ↔ _
  rw [(rot_flags millis s).2.1]
  simp

/-- Witness of C7: the display is reported off 6000 ms after an interaction at 0 ms. -/
theorem displayState_iff_witness :
    ¬ (getDisplayState (updateForRotaryEncoder 6000 State.initial).2 = true) :=
  fun h => absurd ((displayState_iff 6000 State.initial 6000 (by decide) (by decide)).1 h)
    (by decide)

/-- C8: for every elapsed time `t ≥ 0`, after `updateForRotaryEncoder` runs at `t`,
`getRotaryState` returns true if and only if `t < 31500`. -/
theorem rotaryState_iff (millis : Nat) (s : State) (t : Int)
    (ht : elapsedTime millis s.last_update = t) (_h0 : 0 ≤ t) :
    getRotaryState (updateForRotaryEncoder millis s).2 = true ↔ t < 31500 := by
  subst ht
  show (updateForRotaryEncoder millis s).2.rotaryState = true ↔ _
  rw [(rot_flags millis s).2.2]
  simp

/-- Witness of C8: the rotary leds are reported on 31499 ms after an interaction at 0 ms. -/
theorem rotaryState_iff_witness :
    getRotaryState (updateForRotaryEncoder 31499 State.initial).2 = true :=
  (rotaryState_iff 31499 State.initial 31499 (by decide) (by decide)).2 (by decide)

/-! ## Boundaries and range of the luminance -/

/-- C9: on both tracks, at the elapsed time 5000 the luminance is the full power exactly
(25 for the NeoTrellis, 100 for the rotary encoders), at 6000 it is the standby power
exactly (7 and 40), and at 31000 it still is the standby power. -/
theorem boundary_exact (millis : Nat) (s : State) :
    (elapsedTime millis s.last_update = 5000 →
        (updateForNeoTrellis millis s).1 = 25 ∧ (updateForRotaryEncoder millis s).1 = 100) ∧
      (elapsedTime millis s.last_update = 6000 →
        (updateForNeoTrellis millis s).1 = 7 ∧ (updateForRotaryEncoder millis s).1 = 40) ∧
      (elapsedTime millis s.last_update = 31000 →
        (updateForNeoTrellis millis s).1 = 7 ∧ (updateForRotaryEncoder millis s).1 = 40) := by
  rw [neo_luminance_closed millis s, rot_luminance_closed millis s]
  refine ⟨?_, ?_, ?_⟩ <;> intro h <;> rw [h] <;> decide

/-- Witness of C9: the three boundaries after an interaction at 0 ms. -/
theorem boundary_exact_witness :
    ((updateForNeoTrellis 5000 State.initial).1 = 25 ∧
        (updateForRotaryEncoder 5000 State.initial).1 = 100) ∧
      ((updateForNeoTrellis 6000 State.initial).1 = 7 ∧
        (updateForRotaryEncoder 6000 State.initial).1 = 40) ∧
      ((updateForNeoTrellis 31000 State.initial).1 = 7 ∧
        (updateForRotaryEncoder 31000 State.initial).1 = 40) :=
  ⟨(boundary_exact 5000 State.initial).1 (by decide),
    (boundary_exact 6000 State.initial).2.1 (by decide),
    (boundary_exact 31000 State.initial).2.2 (by decide)⟩

/-- C10: for every elapsed time the luminance is a percentage between 0 and 100:
`updateForNeoTrellis` returns a value in `[0, FULL_POWER] = [0, 25]` and
`updateForRotaryEncoder` a value in `[0, FULL_POWER_ROT] = [0, 100]`; the interpolated
values stay between the two endpoints of their window (standby and full power in the
dimming window, 0 and standby power in the disabling window). -/
theorem luminance_range (millis : Nat) (s : State) :
    (0 ≤ (updateForNeoTrellis millis s).1 ∧ (updateForNeoTrellis millis s).1 ≤ FULL_POWER ∧
      (updateForNeoTrellis millis s).1 ≤ 25 ∧ (updateForNeoTrellis millis s).1 ≤ 100) ∧
    (0 ≤ (updateForRotaryEncoder millis s).1 ∧
      (updateForRotaryEncoder millis s).1 ≤ FULL_POWER_ROT ∧
      (updateForRotaryEncoder millis s).1 ≤ 100) ∧
    (5000 ≤ elapsedTime millis s.last_update ∧ elapsedTime millis s.last_update < 6000 →
      (STANDBY_POWER ≤ (updateForNeoTrellis millis s).1 ∧
        (updateForNeoTrellis millis s).1 ≤ FULL_POWER) ∧
      (STANDBY_POWER_ROT ≤ (updateForRotaryEncoder millis s).1 ∧
        (updateForRotaryEncoder millis s).1 ≤ FULL_POWER_ROT)) ∧
    (31000 ≤ elapsedTime millis s.last_update ∧ elapsedTime millis s.last_update < 31500 →
      (0 ≤ (updateForNeoTrellis millis s).1 ∧
        (updateForNeoTrellis millis s).1 ≤ STANDBY_POWER) ∧
      (0 ≤ (updateForRotaryEncoder millis s).1 ∧
        (updateForRotaryEncoder millis s).1 ≤ STANDBY_POWER_ROT)) := by
  rw [neo_luminance_closed millis s, rot_luminance_closed millis s]
  simp only [FULL_POWER, FULL_POWER_ROT, STANDBY_POWER, STANDBY_POWER_ROT]
  refine ⟨?_, ?_, ?_, ?_⟩
  · split_ifs <;> omega
  · split_ifs <;> omega
  · intro h
    rw [if_neg (by omega), if_pos (by omega), if_neg (by omega), if_pos (by omega)]
    omega
  · intro h
    rw [if_neg (by omega), if_neg (by omega), if_neg (by omega), if_pos (by omega),
      if_neg (by omega), if_neg (by omega), if_neg (by omega), if_pos (by omega)]
    omega

/-- Witness of C10: the last millisecond of the dimming window, 5999 ms after an
interaction at 0 ms, where both interpolated values are still above the standby power. -/
theorem luminance_range_witness :
    (STANDBY_POWER ≤ (updateForNeoTrellis 5999 State.initial).1 ∧
        (updateForNeoTrellis 5999 State.initial).1 ≤ FULL_POWER) ∧
      (STANDBY_POWER_ROT ≤ (updateForRotaryEncoder 5999 State.initial).1 ∧
        (updateForRotaryEncoder 5999 State.initial).1 ≤ FULL_POWER_ROT) :=
  (luminance_range 5999 State.initial).2.2.1 ⟨by decide, by decide⟩

/-! ## The frame as a function of the elapsed time -/

/-- Two states with the same four fields are equal. -/
theorem State.eq_of_fields (a b : State) (h1 : a.last_update = b.last_update)
    (h2 : a.off = b.off) (h3 : a.displayState = b.displayState)
    (h4 : a.rotaryState = b.rotaryState) : a = b := by
  cases a
  cases b
  simp only [State.mk.injEq]
  exact ⟨h1, h2, h3, h4⟩

/-- The function `updateForNeoTrellis` writes neither `displayState` nor `rotaryState`. -/
theorem neo_display_rotary (millis : Nat) (s : State) :
    (updateForNeoTrellis millis s).2.displayState = s.displayState ∧
      (updateForNeoTrellis millis s).2.rotaryState = s.rotaryState := by
  unfold updateForNeoTrellis
  simp only
  split_ifs <;> exact ⟨rfl, rfl⟩

/-- The luminances depend on the state through `last_update` only. -/
theorem neo_luminance_congr (m1 m2 : Nat) (s1 s2 : State)
    (h : elapsedTime m1 s1.last_update = elapsedTime m2 s2.last_update) :
    (updateForNeoTrellis m1 s1).1 = (updateForNeoTrellis m2 s2).1 := by
  rw [neo_luminance_closed, neo_luminance_closed, h]

theorem rot_luminance_congr (m1 m2 : Nat) (s1 s2 : State)
    (h : elapsedTime m1 s1.last_update = elapsedTime m2 s2.last_update) :
    (updateForRotaryEncoder m1 s1).1 = (updateForRotaryEncoder m2 s2).1 := by
  rw [rot_luminance_closed, rot_luminance_closed, h]

/-- The result of a frame, `updateForNeoTrellis` first, in terms of the elapsed time. -/
theorem evaluateFrame_eq (millis : Nat) (s : State) :
    evaluateFrame millis s =
      (((updateForNeoTrellis millis s).1, (updateForRotaryEncoder millis s).1),
        { last_update := s.last_update,
          off := decide (31500 ≤ elapsedTime millis s.last_update),
          displayState := decide (elapsedTime millis s.last_update < 6000),
          rotaryState := decide (elapsedTime millis s.last_update < 31500) }) := by
  have hl := neo_last_update millis s
  have hf := rot_flags millis (updateForNeoTrellis millis s).2
  rw [hl] at hf
  show (((updateForNeoTrellis millis s).1,
      (updateForRotaryEncoder millis (updateForNeoTrellis millis s).2).1),
      (updateForRotaryEncoder millis (updateForNeoTrellis millis s).2).2) = _
  rw [rot_luminance_congr millis millis (updateForNeoTrellis millis s).2 s (by rw [hl])]
  refine Prod.ext rfl (State.eq_of_fields _ _ ?_ hf.1 hf.2.1 hf.2.2)
  show (updateForRotaryEncoder millis (updateForNeoTrellis millis s).2).2.last_update = _
  rw [rot_last_update, hl]

/-- The result of a frame, `updateForRotaryEncoder` first, in terms of the elapsed time. -/
theorem evaluateFrameRotaryFirst_eq (millis : Nat) (s : State) :
    evaluateFrameRotaryFirst millis s =
      (((updateForNeoTrellis millis s).1, (updateForRotaryEncoder millis s).1),
        { last_update := s.last_update,
          off := decide (31500 ≤ elapsedTime millis s.last_update),
          displayState := decide (elapsedTime millis s.last_update < 6000),
          rotaryState := decide (elapsedTime millis s.last_update < 31500) }) := by
  have hl := rot_last_update millis s
  have hf := rot_flags millis s
  have ho := neo_off millis (updateForRotaryEncoder millis s).2
  have hd := neo_display_rotary millis (updateForRotaryEncoder millis s).2
  rw [hl] at ho
  show (((updateForNeoTrellis millis (updateForRotaryEncoder millis s).2).1,
      (updateForRotaryEncoder millis s).1),
      (updateForNeoTrellis millis (updateForRotaryEncoder millis s).2).2) = _
  rw [neo_luminance_congr millis millis (updateForRotaryEncoder millis s).2 s (by rw [hl])]
  refine Prod.ext rfl (State.eq_of_fields _ _ ?_ ho (hd.1.trans hf.2.1) (hd.2.trans hf.2.2))
  show (updateForNeoTrellis millis (updateForRotaryEncoder millis s).2).2.last_update = _
  rw [neo_last_update, hl]

/-- C11: evaluating the frame twice at the same clock reading `now`, with no `resetTimer`
in between, returns the same two luminances both times and leaves the same state (`off`,
`displayState`, `rotaryState`, `last_update`) as evaluating it once, in either order of
the two evaluators; the luminances and the three flags depend only on the elapsed time
`now - last_update`, not on the previous values of `off`, `displayState`, `rotaryState`. -/
theorem frame_idempotent (now : Nat) (s : State) :
    evaluateFrame now (evaluateFrame now s).2 = evaluateFrame now s ∧
      evaluateFrameRotaryFirst now (evaluateFrameRotaryFirst now s).2
        = evaluateFrameRotaryFirst now s ∧
      (∀ (now2 : Nat) (s2 : State),
        elapsedTime now2 s2.last_update = elapsedTime now s.last_update →
          (evaluateFrame now2 s2).1 = (evaluateFrame now s).1 ∧
          (evaluateFrame now2 s2).2.off = (evaluateFrame now s).2.off ∧
          (evaluateFrame now2 s2).2.displayState = (evaluateFrame now s).2.displayState ∧
          (evaluateFrame now2 s2).2.rotaryState = (evaluateFrame now s).2.rotaryState) := by
  refine ⟨?_, ?_, ?_⟩
  · have h : (evaluateFrame now s).2.last_update = s.last_update := by
      rw [evaluateFrame_eq]
    rw [evaluateFrame_eq now (evaluateFrame now s).2, h,
      neo_luminance_congr now now (evaluateFrame now s).2 s (by rw [h]),
      rot_luminance_congr now now (evaluateFrame now s).2 s (by rw [h]),
      ← evaluateFrame_eq]
  · have h : (evaluateFrameRotaryFirst now s).2.last_update = s.last_update := by
      rw [evaluateFrameRotaryFirst_eq]
    rw [evaluateFrameRotaryFirst_eq now (evaluateFrameRotaryFirst now s).2, h,
      neo_luminance_congr now now (evaluateFrameRotaryFirst now s).2 s (by rw [h]),
      rot_luminance_congr now now (evaluateFrameRotaryFirst now s).2 s (by rw [h]),
      ← evaluateFrameRotaryFirst_eq]
  · intro now2 s2 h
    rw [evaluateFrame_eq now2 s2, evaluateFrame_eq now s, h,
      neo_luminance_congr now2 now s2 s h, rot_luminance_congr now2 now s2 s h]
    exact ⟨rfl, rfl, rfl, rfl⟩

/-- Witness of C11: 5500 ms after the last interaction, once from the initial state and
once with the last interaction at 1000 ms and the three flags set. -/
theorem frame_idempotent_witness :
    (evaluateFrame 6500
        { last_update := 1000, off := true, displayState := true, rotaryState := true }).1
      = (evaluateFrame 5500 State.initial).1 :=
  ((frame_idempotent 5500 State.initial).2.2 6500
    { last_update := 1000, off := true, displayState := true, rotaryState := true }
    (by decide)).1

/-- C12: a negative elapsed time is treated as zero: for every negative value of `time`
each evaluator returns the luminance and writes the flags it returns and writes for
`time == 0`: `updateForNeoTrellis` returns 25 and writes `off = false`;
`updateForRotaryEncoder` returns 100 and writes `off = false`, `displayState = true`,
`rotaryState = true`. -/
theorem negative_time_as_zero (millis : Nat) (s : State)
    (h : elapsedTime millis s.last_update < 0) :
    elapsedTime s.last_update s.last_update = 0 ∧
      updateForNeoTrellis millis s = updateForNeoTrellis s.last_update s ∧
      updateForRotaryEncoder millis s = updateForRotaryEncoder s.last_update s ∧
      updateForNeoTrellis millis s = (25, { s with off := false }) ∧
      updateForRotaryEncoder millis s
        = (100, { s with off := false, displayState := true, rotaryState := true }) ∧
      (updateForNeoTrellis millis s).2.off = false ∧
      (updateForRotaryEncoder millis s).2.off = false ∧
      (updateForRotaryEncoder millis s).2.displayState = true ∧
      (updateForRotaryEncoder millis s).2.rotaryState = true := by
  have h0 : elapsedTime s.last_update s.last_update = 0 := by
    unfold elapsedTime
    simp only
    have : (s.last_update % 4294967296 + 4294967296 - s.last_update % 4294967296)
        % 4294967296 = 0 := by omega
    rw [this]
    rfl
  rw [neo_awake millis s (by omega), rot_awake millis s (by omega),
    neo_awake s.last_update s (by omega), rot_awake s.last_update s (by omega)]
  exact ⟨h0, rfl, rfl, rfl, rfl, rfl, rfl, rfl, rfl⟩

/-- Witness of C12: the clock reads 0 while the last interaction is recorded at 1 ms. -/
theorem negative_time_as_zero_witness :
    updateForNeoTrellis 0
        { last_update := 1, off := true, displayState := false, rotaryState := false }
      = (25, { last_update := 1, off := false, displayState := false, rotaryState := false }) ∧
    updateForRotaryEncoder 0
        { last_update := 1, off := true, displayState := false, rotaryState := false }
      = (100, { last_update := 1, off := false, displayState := true, rotaryState := true }) :=
  ⟨(negative_time_as_zero 0
      { last_update := 1, off := true, displayState := false, rotaryState := false }
      (by decide)).2.2.2.1,
    (negative_time_as_zero 0
      { last_update := 1, off := true, displayState := false, rotaryState := false }
      (by decide)).2.2.2.2.1⟩

/-! ## Sequences of calls -/

/-- The elapsed time between two clock readings less than `2^31` ms apart. -/
theorem elapsedTime_of_le (now now2 : Nat) (h : now ≤ now2) (hd : now2 - now < 2147483648) :
    elapsedTime now2 now = ((now2 - now : Nat) : Int) := by
  unfold elapsedTime
  simp only
  have : (now2 % 4294967296 + 4294967296 - now % 4294967296) % 4294967296 = now2 - now := by
    omega
  rw [this]
  simp [hd]

/-- A sequence of `resetTimer` calls leaves `off` as it is. -/
theorem run_resetTimer_off (nows : List Nat) (s : State) :
    (run (nows.map Op.resetTimer) s).off = s.off := by
  induction nows generalizing s with
  | nil => rfl
  | cons n rest ih =>
    show (run (rest.map Op.resetTimer) (resetTimer n s).2).off = s.off
    rw [ih]
    rfl

/-- C14: the two-touch wake protocol with a tick in between.  In every state in which `off`
is true, `resetTimer` at any clock reading `now` returns false; if both evaluators then run
(in either order) at a clock reading `now2` with `0 ≤ now2 - now < 31500`, the next
`resetTimer` returns true.  Conversely, once a frame evaluation has run at an elapsed time
of at least 31500, every `resetTimer` returns false until the next evaluation. -/
theorem two_touch_wake (s : State) (now : Nat) (hoff : s.off = true) :
    (resetTimer now s).1 = false ∧
      (∀ now2 now3 : Nat, now ≤ now2 → now2 - now < 31500 →
        (resetTimer now3 (evaluateFrame now2 (resetTimer now s).2).2).1 = true ∧
        (resetTimer now3 (evaluateFrameRotaryFirst now2 (resetTimer now s).2).2).1 = true) ∧
      (∀ (m : Nat) (s0 : State), 31500 ≤ elapsedTime m s0.last_update →
        ∀ (nows : List Nat) (n : Nat),
          (resetTimer n (run (nows.map Op.resetTimer) (evaluateFrame m s0).2)).1 = false ∧
          (resetTimer n (run (nows.map Op.resetTimer) (evaluateFrameRotaryFirst m s0).2)).1
            = false) := by
  refine ⟨?_, ?_, ?_⟩
  · simp [resetTimer, hoff]
  · intro now2 now3 hle hlt
    have hl : (resetTimer now s).2.last_update = now := rfl
    have ht : elapsedTime now2 now = ((now2 - now : Nat) : Int) :=
      elapsedTime_of_le now now2 hle (by omega)
    have hn : ¬ (31500 ≤ elapsedTime now2 now) := by omega
    constructor
    · show (!(evaluateFrame now2 (resetTimer now s).2).2.off) = true
      rw [evaluateFrame_eq, hl]
      simp [hn]
    · show (!(evaluateFrameRotaryFirst now2 (resetTimer now s).2).2.off) = true
      rw [evaluateFrameRotaryFirst_eq, hl]
      simp [hn]
  · intro m s0 h nows n
    constructor
    · show (!(run (nows.map Op.resetTimer) (evaluateFrame m s0).2).off) = false
      rw [run_resetTimer_off, evaluateFrame_eq]
      simp [h]
    · show (!(run (nows.map Op.resetTimer) (evaluateFrameRotaryFirst m s0).2).off) = false
      rw [run_resetTimer_off, evaluateFrameRotaryFirst_eq]
      simp [h]

/-- Witness of C14: the system went off 40000 ms after an interaction at 0 ms; a touch at
50000 only wakes, and after a tick at 50010 the touch at 50020 acts. -/
theorem two_touch_wake_witness :
    (resetTimer 50000 (evaluateFrame 40000 State.initial).2).1 = false ∧
      (resetTimer 50020 (evaluateFrame 50010
        (resetTimer 50000 (evaluateFrame 40000 State.initial).2).2).2).1 = true ∧
      (resetTimer 50001 (run ([40001, 40002].map Op.resetTimer)
        (evaluateFrame 40000 State.initial).2)).1 = false :=
  ⟨(two_touch_wake (evaluateFrame 40000 State.initial).2 50000 (by decide)).1,
    ((two_touch_wake (evaluateFrame 40000 State.initial).2 50000 (by decide)).2.1
      50010 50020 (by decide) (by decide)).1,
    ((two_touch_wake (evaluateFrame 40000 State.initial).2 50000 (by decide)).2.2
      40000 State.initial (by decide) [40001, 40002] 50001).1⟩

/-- C15: a fresh boot behaves as though the system just woke: in the initial state
(`last_update = 0`, all three flags false) a frame evaluation at any clock reading
`now < 5000` yields the Awake outputs (luminances 25 and 100, `off` false, display active,
rotary illumination active), and a `resetTimer` issued from the initial state returns
true. -/
theorem fresh_boot (now : Nat) (h : now < 5000) :
    evaluateFrame now State.initial
        = ((25, 100),
          { last_update := 0, off := false, displayState := true, rotaryState := true }) ∧
      evaluateFrameRotaryFirst now State.initial
        = ((25, 100),
          { last_update := 0, off := false, displayState := true, rotaryState := true }) ∧
      getDisplayState (evaluateFrame now State.initial).2 = true ∧
      getRotaryState (evaluateFrame now State.initial).2 = true ∧
      (∀ n : Nat, (resetTimer n State.initial).1 = true) := by
  have ht : elapsedTime now State.initial.last_update = ((now - 0 : Nat) : Int) :=
    elapsedTime_of_le 0 now (Nat.zero_le _) (by omega)
  have h1 : elapsedTime now State.initial.last_update < 5000 := by omega
  have e1 : evaluateFrame now State.initial
      = ((25, 100),
        { last_update := 0, off := false, displayState := true, rotaryState := true }) := by
    have d1 : decide (31500 ≤ elapsedTime now State.initial.last_update) = false :=
      decide_eq_false (by omega)
    have d2 : decide (elapsedTime now State.initial.last_update < 6000) = true :=
      decide_eq_true (by omega)
    have d3 : decide (elapsedTime now State.initial.last_update < 31500) = true :=
      decide_eq_true (by omega)
    rw [evaluateFrame_eq, neo_awake now _ h1, rot_awake now _ h1, d1, d2, d3]
    rfl
  have e2 : evaluateFrameRotaryFirst now State.initial = evaluateFrame now State.initial := by
    rw [evaluateFrameRotaryFirst_eq, evaluateFrame_eq]
  refine ⟨e1, e2.trans e1, ?_, ?_, fun n => rfl⟩
  · rw [e1]; rfl
  · rw [e1]; rfl

/-- Witness of C15: the first frame 4999 ms after boot. -/
theorem fresh_boot_witness :
    evaluateFrame 4999 State.initial
      = ((25, 100),
        { last_update := 0, off := false, displayState := true, rotaryState := true }) :=
  (fresh_boot 4999 (by decide)).1

/-- C18: the two evaluators are independent of their order: evaluated at the same clock
reading in the same state they take the branch of the same stage and write the same value
to `off`, so running them in either order yields the same pair of luminances and the same
final state. -/
theorem order_independent (millis : Nat) (s : State) :
    (updateForNeoTrellis millis s).2.off = (updateForRotaryEncoder millis s).2.off ∧
      (updateForNeoTrellis millis (updateForRotaryEncoder millis s).2).2.off
        = (updateForRotaryEncoder millis (updateForNeoTrellis millis s).2).2.off ∧
      evaluateFrame millis s = evaluateFrameRotaryFirst millis s := by
  refine ⟨?_, ?_, ?_⟩
  · rw [neo_off, (rot_flags millis s).1]
  · rw [neo_off, (rot_flags millis _).1, rot_last_update, neo_last_update]
  · rw [evaluateFrame_eq, evaluateFrameRotaryFirst_eq]

/-- The invariant `displayState → rotaryState` is kept by every call. -/
theorem step_invariant (s : State) (op : Op)
    (h : s.displayState = true → s.rotaryState = true) :
    (op.step s).displayState = true → (op.step s).rotaryState = true := by
  cases op with
  | resetTimer millis => exact h
  | updateForNeoTrellis millis =>
    show (updateForNeoTrellis millis s).2.displayState = true →
      (updateForNeoTrellis millis s).2.rotaryState = true
    rw [(neo_display_rotary millis s).1, (neo_display_rotary millis s).2]
    exact h
  | updateForRotaryEncoder millis =>
    show (updateForRotaryEncoder millis s).2.displayState = true →
      (updateForRotaryEncoder millis s).2.rotaryState = true
    rw [(rot_flags millis s).2.1, (rot_flags millis s).2.2]
    simp only [decide_eq_true_eq]
    omega

theorem run_invariant (ops : List Op) (s : State)
    (h : s.displayState = true → s.rotaryState = true) :
    (run ops s).displayState = true → (run ops s).rotaryState = true := by
  induction ops generalizing s with
  | nil => exact h
  | cons op rest ih => exact ih (op.step s) (step_invariant s op h)

/-- C19: in every state reachable from the initial state by a sequence of `resetTimer`,
`updateForNeoTrellis` and `updateForRotaryEncoder` calls at arbitrary clock readings,
`displayState` implies `rotaryState`; and immediately after any `updateForRotaryEncoder`
call `off` equals `!rotaryState`. -/
theorem reachable_invariant (ops : List Op) :
    ((run ops State.initial).displayState = true →
        (run ops State.initial).rotaryState = true) ∧
      (∀ millis : Nat,
        (updateForRotaryEncoder millis (run ops State.initial)).2.off
          = !(updateForRotaryEncoder millis (run ops State.initial)).2.rotaryState) := by
  refine ⟨run_invariant ops State.initial (fun h => absurd h (by decide)), ?_⟩
  intro millis
  rw [(rot_flags millis _).1, (rot_flags millis _).2.2]
  by_cases h : 31500 ≤ elapsedTime millis (run ops State.initial).last_update
  · have h2 : ¬ (elapsedTime millis (run ops State.initial).last_update < 31500) := by omega
    simp [h, h2]
  · have h2 : elapsedTime millis (run ops State.initial).last_update < 31500 := by omega
    simp [h, h2]

/-- Witness of C19: a touch at 100 ms, the rotary evaluator at 200 ms and the NeoTrellis
evaluator at 40000 ms. -/
theorem reachable_invariant_witness :
    (run [Op.resetTimer 100, Op.updateForRotaryEncoder 200, Op.updateForNeoTrellis 40000]
        State.initial).rotaryState = true :=
  (reachable_invariant
    [Op.resetTimer 100, Op.updateForRotaryEncoder 200, Op.updateForNeoTrellis 40000]).1
    (by decide)

/-! ## The width of the elapsed time -/

/-- C20: with `millis()` and `last_update` 32-bit unsigned and `time` a 32-bit signed
`int`, `time` is `d = (millis() - last_update) mod 2^32` read as a signed value: it equals
`d` whenever `d < 2^31` (also when `millis()` has wrapped past `last_update`), and it is
the negative number `d - 2^32` whenever `d ≥ 2^31`; then both evaluators take the Awake
branch and return the full power with `off = false`. -/
theorem elapsed_width32 (millis : Nat) (s : State) :
    (((millis : Int) - (s.last_update : Int)) % 4294967296 < 2147483648 →
        elapsedTime millis s.last_update
          = ((millis : Int) - (s.last_update : Int)) % 4294967296) ∧
      (2147483648 ≤ ((millis : Int) - (s.last_update : Int)) % 4294967296 →
        elapsedTime millis s.last_update
            = ((millis : Int) - (s.last_update : Int)) % 4294967296 - 4294967296 ∧
          elapsedTime millis s.last_update < 0 ∧
          updateForNeoTrellis millis s = (25, { s with off := false }) ∧
          updateForRotaryEncoder millis s
            = (100, { s with off := false, displayState := true, rotaryState := true })) := by
  have key : elapsedTime millis s.last_update
      = if ((millis : Int) - (s.last_update : Int)) % 4294967296 < 2147483648
        then ((millis : Int) - (s.last_update : Int)) % 4294967296
        else ((millis : Int) - (s.last_update : Int)) % 4294967296 - 4294967296 := by
    unfold elapsedTime
    simp only
    split_ifs <;> omega
  constructor
  · intro h
    rw [key, if_pos h]
  · intro h
    have hneg : elapsedTime millis s.last_update < 0 := by
      rw [key, if_neg (by omega)]
      omega
    refine ⟨?_, hneg, neo_awake millis s (by omega), rot_awake millis s (by omega)⟩
    rw [key, if_neg (by omega)]

/-- Witness of C20: the last interaction at `2^32 - 100`, the clock wrapped to 400
(500 ms elapsed); and the clock at `2^31` with the last interaction at 0. -/
theorem elapsed_width32_witness :
    elapsedTime 400 4294967196 = 500 ∧
      updateForNeoTrellis 2147483648 State.initial = (25, State.initial) ∧
      updateForRotaryEncoder 2147483648 State.initial
        = (100,
          { last_update := 0, off := false, displayState := true, rotaryState := true }) :=
  ⟨((elapsed_width32 400
      { last_update := 4294967196, off := false, displayState := false, rotaryState := false }).1
      (by decide)).trans (by decide),
    ((elapsed_width32 2147483648 State.initial).2 (by decide)).2.2.1,
    ((elapsed_width32 2147483648 State.initial).2 (by decide)).2.2.2⟩

/-! ## Accuracy of the interpolation -/

/-- The value of a downward `map` lies on or above the exact line and less than one above
it, and lies on it exactly when the division leaves no remainder. -/
theorem map_accuracy (x b c d : Int) (hx : 0 ≤ x) (hb : 0 < b) (hcd : d ≤ c) :
    exactInterpolation x b c d ≤ (Arduino.map x 0 b c d : ℚ) ∧
      (Arduino.map x 0 b c d : ℚ) < exactInterpolation x b c d + 1 ∧
      ((Arduino.map x 0 b c d : ℚ) = exactInterpolation x b c d ↔ b ∣ x * (d - c)) := by
  rw [map_down x b c d hx hb hcd]
  have hbq : (0 : ℚ) < (b : ℚ) := by exact_mod_cast hb
  have hdiv : (b : Int) * (x * (c - d) / b) + x * (c - d) % b = x * (c - d) :=
    Int.ediv_add_emod _ _
  have hr0 : 0 ≤ x * (c - d) % b := Int.emod_nonneg _ (by omega)
  have hr1 : x * (c - d) % b < b := Int.emod_lt_of_pos _ hb
  have hdivq : (b : ℚ) * ((x * (c - d) / b : Int) : ℚ) + ((x * (c - d) % b : Int) : ℚ)
      = (x : ℚ) * ((c : ℚ) - (d : ℚ)) := by exact_mod_cast hdiv
  have hr0q : (0 : ℚ) ≤ ((x * (c - d) % b : Int) : ℚ) := by exact_mod_cast hr0
  have hr1q : ((x * (c - d) % b : Int) : ℚ) < (b : ℚ) := by exact_mod_cast hr1
  have he : exactInterpolation x b c d
      = (c : ℚ) - ((x * (c - d) / b : Int) : ℚ) - ((x * (c - d) % b : Int) : ℚ) / (b : ℚ) := by
    unfold exactInterpolation
    field_simp
    linear_combination hdivq
  have hfrac0 : (0 : ℚ) ≤ ((x * (c - d) % b : Int) : ℚ) / (b : ℚ) := div_nonneg hr0q hbq.le
  have hfrac1 : ((x * (c - d) % b : Int) : ℚ) / (b : ℚ) < 1 := (div_lt_one hbq).2 hr1q
  rw [he]
  push_cast
  refine ⟨by linarith, by linarith, ?_⟩
  constructor
  · intro h
    have hz : ((x * (c - d) % b : Int) : ℚ) / (b : ℚ) = 0 := by
      linarith
    have hz2 : ((x * (c - d) % b : Int) : ℚ) = 0 := by
      rcases div_eq_zero_iff.1 hz with h1 | h1
      · exact h1
      · exact absurd h1 hbq.ne'
    have hz3 : x * (c - d) % b = 0 := by exact_mod_cast hz2
    have hdvd : b ∣ x * (c - d) := Int.dvd_of_emod_eq_zero hz3
    have : x * (d - c) = -(x * (c - d)) := by ring
    rw [this]
    exact (Int.dvd_neg).2 hdvd
  · intro h
    have : x * (d - c) = -(x * (c - d)) := by ring
    rw [this] at h
    have hdvd : b ∣ x * (c - d) := (Int.dvd_neg).1 h
    have hz3 : x * (c - d) % b = 0 := Int.emod_eq_zero_of_dvd hdvd
    have hz : ((x * (c - d) % b : Int) : ℚ) = 0 := by exact_mod_cast hz3
    have hz' := hz
    push_cast at hz'
    rw [hz']
    simp

/-- C16: for every elapsed time `t` in the dimming window `[5000, 6000)` or the disabling
window `[31000, 31500)`, on both tracks, the value `v` returned (computed by `map`) and the
exact rational interpolation `e` between the two power endpoints of the window satisfy
`e ≤ v < e + 1`, and `v = e` exactly when the division of `map` is exact. -/
theorem interpolation_accuracy (millis : Nat) (s : State) (t : Int)
    (ht : elapsedTime millis s.last_update = t) :
    (5000 ≤ t ∧ t < 6000 →
      (exactInterpolation (t - 5000) 1000 25 7 ≤ ((updateForNeoTrellis millis s).1 : ℚ) ∧
        ((updateForNeoTrellis millis s).1 : ℚ) < exactInterpolation (t - 5000) 1000 25 7 + 1 ∧
        (((updateForNeoTrellis millis s).1 : ℚ) = exactInterpolation (t - 5000) 1000 25 7
          ↔ (1000 : Int) ∣ (t - 5000) * (7 - 25))) ∧
      (exactInterpolation (t - 5000) 1000 100 40 ≤ ((updateForRotaryEncoder millis s).1 : ℚ) ∧
        ((updateForRotaryEncoder millis s).1 : ℚ)
          < exactInterpolation (t - 5000) 1000 100 40 + 1 ∧
        (((updateForRotaryEncoder millis s).1 : ℚ) = exactInterpolation (t - 5000) 1000 100 40
          ↔ (1000 : Int) ∣ (t - 5000) * (40 - 100)))) ∧
    (31000 ≤ t ∧ t < 31500 →
      (exactInterpolation (t - 31000) 500 7 0 ≤ ((updateForNeoTrellis millis s).1 : ℚ) ∧
        ((updateForNeoTrellis millis s).1 : ℚ) < exactInterpolation (t - 31000) 500 7 0 + 1 ∧
        (((updateForNeoTrellis millis s).1 : ℚ) = exactInterpolation (t - 31000) 500 7 0
          ↔ (500 : Int) ∣ (t - 31000) * (0 - 7))) ∧
      (exactInterpolation (t - 31000) 500 40 0 ≤ ((updateForRotaryEncoder millis s).1 : ℚ) ∧
        ((updateForRotaryEncoder millis s).1 : ℚ)
          < exactInterpolation (t - 31000) 500 40 0 + 1 ∧
        (((updateForRotaryEncoder millis s).1 : ℚ) = exactInterpolation (t - 31000) 500 40 0
          ↔ (500 : Int) ∣ (t - 31000) * (0 - 40)))) := by
  subst ht
  constructor
  · intro h
    rw [neo_dimming millis s h.1 h.2, rot_dimming millis s h.1 h.2]
    exact ⟨map_accuracy _ 1000 25 7 (by omega) (by omega) (by omega),
      map_accuracy _ 1000 100 40 (by omega) (by omega) (by omega)⟩
  · intro h
    rw [neo_disabling millis s h.1 h.2, rot_disabling millis s h.1 h.2]
    exact ⟨map_accuracy _ 500 7 0 (by omega) (by omega) (by omega),
      map_accuracy _ 500 40 0 (by omega) (by omega) (by omega)⟩

/-- Witness of C16: 5055 ms after an interaction at 0 ms the exact NeoTrellis value is
`25 - 0.99 = 24.01` and the value returned is 25. -/
theorem interpolation_accuracy_witness :
    exactInterpolation (5055 - 5000) 1000 25 7
        ≤ ((updateForNeoTrellis 5055 State.initial).1 : ℚ) ∧
      ((updateForNeoTrellis 5055 State.initial).1 : ℚ)
        < exactInterpolation (5055 - 5000) 1000 25 7 + 1 :=
  ⟨((interpolation_accuracy 5055 State.initial 5055 (by decide)).1
      ⟨by decide, by decide⟩).1.1,
    ((interpolation_accuracy 5055 State.initial 5055 (by decide)).1
      ⟨by decide, by decide⟩).1.2.1⟩

end LedController

namespace Display

/-! ## The x-coordinate of a centred text -/

/-- More fuel than the iterations left up to index 24 changes nothing: the loop of
`get_x_coordinate` has ended by then. -/
theorem count_fuel (text : Nat → Int) (k fuel i : Nat) (acc : Int) (h : 24 ≤ i + fuel) :
    get_x_coordinate.count text (fuel + k) i acc = get_x_coordinate.count text fuel i acc := by
  induction fuel generalizing i acc with
  | zero =>
    cases k with
    | zero => rfl
    | succ k =>
      have hi : ¬ i < 24 := by omega
      simp only [Nat.zero_add, get_x_coordinate.count, if_neg hi]
  | succ fuel ih =>
    have e : fuel + 1 + k = (fuel + k) + 1 := by omega
    rw [e]
    simp only [get_x_coordinate.count]
    split_ifs with h1 h2
    · rfl
    · exact ih (i + 1) (acc + 1) (by omega)
    · rfl

/-- The loop counts the characters before the first zero character, 24 at most. -/
theorem count_eq (text : Nat → Int) (n : Nat) (hn : n ≤ 24)
    (hnz : ∀ i, i < n → text i ≠ 0) (hz : n < 24 → text n = 0)
    (fuel i : Nat) (acc : Int) (hi : i ≤ n) (hf : 24 ≤ i + fuel) :
    get_x_coordinate.count text fuel i acc = acc + ((n - i : Nat) : Int) := by
  induction fuel generalizing i acc with
  | zero =>
    have : n - i = 0 := by omega
    simp [get_x_coordinate.count, this]
  | succ fuel ih =>
    simp only [get_x_coordinate.count]
    split_ifs with h1 h2
    · have hin : ¬ i < n := fun hlt => hnz i hlt h2
      have : n - i = 0 := by omega
      simp [this]
    · have hne : i ≠ n := by
        intro e
        subst e
        exact h2 (hz h1)
      rw [ih (i + 1) (acc + 1) (by omega) (by omega)]
      have : ((n - i : Nat) : Int) = ((n - (i + 1) : Nat) : Int) + 1 := by omega
      rw [this]
      ring
    · have : n - i = 0 := by omega
      simp [this]

/-- Every text has a first zero character among its first `k` characters, or none. -/
theorem first_zero (text : Nat → Int) (k : Nat) :
    (∃ n, n < k ∧ (∀ i, i < n → text i ≠ 0) ∧ text n = 0) ∨ (∀ i, i < k → text i ≠ 0) := by
  induction k with
  | zero => exact Or.inr (fun i hi => absurd hi (Nat.not_lt_zero i))
  | succ k ih =>
    rcases ih with ⟨n, hn, h1, h2⟩ | h
    · exact Or.inl ⟨n, by omega, h1, h2⟩
    · by_cases hk : text k = 0
      · exact Or.inl ⟨k, by omega, h, hk⟩
      · right
        intro i hi
        by_cases e : i = k
        · rw [e]; exact hk
        · exact h i (by omega)

/-- Inside the range of `int` nothing is lost. -/
theorem wrapInt32_of_range (x : Int) (h1 : -2147483648 ≤ x) (h2 : x < 2147483648) :
    wrapInt32 x = x := by
  unfold wrapInt32
  omega

/-- The result of `get_x_coordinate` for a text whose first zero character is at `n`. -/
theorem get_x_coordinate_eq (text : Nat → Int) (middle : Int) (n : Nat) (hn : n ≤ 24)
    (hnz : ∀ i, i < n → text i ≠ 0) (hz : n < 24 → text n = 0) :
    get_x_coordinate text middle = wrapInt32 (middle - 3 * (n : Int)) := by
  unfold get_x_coordinate
  simp only
  rw [count_eq text n hn hnz hz 24 0 0 (Nat.zero_le _) (by omega)]
  have h0 : (0 : Int) ≤ (0 + ((n - 0 : Nat) : Int)) * 6 := by omega
  rw [Int.tdiv_eq_ediv h0 (by omega)]
  congr 1
  omega

/-- C17, as stated, fails: for a text of 24 non-zero characters (`n = 24`) and
`middle = -2147483638` the subtraction of `3*n = 72` leaves the range of `int`, and the
result is `2147483586`, not `middle - 3*n = -2147483710`. -/
theorem get_x_coordinate_counterexample :
    (∀ i, i < 24 → (fun _ : Nat => (65 : Int)) i ≠ 0) ∧
      get_x_coordinate (fun _ => 65) (-2147483638) = 2147483586 ∧
      ¬ (get_x_coordinate (fun _ => 65) (-2147483638) = -2147483638 - 3 * 24) := by
  refine ⟨?_, by decide, by decide⟩
  intro i _
  show (65 : Int) ≠ 0
  decide

/-- C17, amended: `get_x_coordinate` centres a text on `middle`: for every character array
`text` and every `int` value `middle`, with `n` the index of the first zero character among
`text[0..23]` (`n = 24` if none of them is zero), the result is
`middle - 3*n = middle - (6*n)/2` provided that `INT_MIN + 3*n ≤ middle`, so that the
subtraction stays in the range of `int`; the result does not depend on the characters at
an index `≥ 24` or past the first zero character; the empty text yields `middle`. -/
theorem get_x_coordinate_centres (text : Nat → Int) (middle : Int)
    (hlo : -2147483648 ≤ middle) (hhi : middle < 2147483648) :
    ∃ n : Nat, n ≤ 24 ∧ (∀ i, i < n → text i ≠ 0) ∧ (n < 24 → text n = 0) ∧
      (-2147483648 + 3 * (n : Int) ≤ middle →
        get_x_coordinate text middle = middle - 3 * (n : Int) ∧
        get_x_coordinate text middle = middle - Int.tdiv (6 * (n : Int)) 2) ∧
      (∀ text2 : Nat → Int, (∀ i, i ≤ n → i < 24 → text2 i = text i) →
        get_x_coordinate text2 middle = get_x_coordinate text middle) ∧
      (text 0 = 0 → get_x_coordinate text middle = middle) := by
  have key : ∃ n : Nat, n ≤ 24 ∧ (∀ i, i < n → text i ≠ 0) ∧ (n < 24 → text n = 0) := by
    rcases first_zero text 24 with ⟨n, hn, h1, h2⟩ | h
    · exact ⟨n, by omega, h1, fun _ => h2⟩
    · exact ⟨24, Nat.le_refl _, h, fun h24 => absurd h24 (by omega)⟩
  obtain ⟨n, hn, hnz, hz⟩ := key
  have hres := get_x_coordinate_eq text middle n hn hnz hz
  refine ⟨n, hn, hnz, hz, ?_, ?_, ?_⟩
  · intro hrange
    have hval : get_x_coordinate text middle = middle - 3 * (n : Int) := by
      rw [hres, wrapInt32_of_range _ (by omega) (by omega)]
    refine ⟨hval, ?_⟩
    rw [hval, Int.tdiv_eq_ediv (by omega) (by omega)]
    omega
  · intro text2 h2
    rw [hres]
    refine get_x_coordinate_eq text2 middle n hn ?_ ?_
    · intro i hi
      rw [h2 i (by omega) (by omega)]
      exact hnz i hi
    · intro h24
      rw [h2 n (Nat.le_refl _) h24]
      exact hz h24
  · intro h0
    have hn0 : n = 0 := by
      by_contra hne
      exact hnz 0 (by omega) h0
    rw [hres, hn0, wrapInt32_of_range _ (by omega) (by omega)]
    simp

/-- Witness of the amended C17: the text `"ABC"` centred on 64 starts at 55, whatever
follows its terminating zero. -/
theorem get_x_coordinate_centres_witness :
    get_x_coordinate (fun i => if i < 3 then 65 + (i : Int) else if i = 3 then 0 else 90) 64
      = 55 := by
  obtain ⟨n, _, hnz, hz, hres, _⟩ := get_x_coordinate_centres
    (fun i => if i < 3 then 65 + (i : Int) else if i = 3 then 0 else 90) 64
    (by decide) (by decide)
  have h3 : n = 3 := by
    by_contra hne
    rcases Nat.lt_or_gt_of_ne hne with hlt | hgt
    · have h := hz (by omega)
      simp only [if_pos hlt] at h
      omega
    · exact hnz 3 hgt (by decide)
  rw [(hres (by omega)).1, h3]
  rfl

/-! ## The gate of `update` -/

/-- The calls `update` adds when the display is to be off: the screen of the app when the
app has changed, the two clearing calls when the app is the same and the display was on,
none otherwise. -/
theorem update_disabled_calls (apps : Int → Config.App) (cur_app : Int) (s : State) :
    (cur_app ≠ s.prev_app →
        (update apps cur_app false s).calls = s.calls ++ appScreenCalls apps cur_app) ∧
      (cur_app = s.prev_app → s.prev_enabled = true →
        (update apps cur_app false s).calls = s.calls ++ [Call.clearDisplay, Call.display]) ∧
      (cur_app = s.prev_app → s.prev_enabled = false →
        (update apps cur_app false s).calls = s.calls) := by
  refine ⟨?_, ?_, ?_⟩
  · intro h
    simp [update, h]
  · intro h1 h2
    simp [update, h1, h2]
  · intro h1 h2
    simp [update, h1, h2]

/-- The screen of an app always contains drawing calls. -/
theorem appScreenCalls_draws (apps : Int → Config.App) (cur_app : Int) :
    (appScreenCalls apps cur_app).any Call.draws = true := by
  unfold appScreenCalls
  simp [Call.draws]

/-- C13 fails on the code: with `prev_enabled = false`, `prev_app = 0` and nothing drawn
yet, the call `update(1, false)` draws the screen of app 1 although `enabled` is false;
it records `prev_enabled = false`, and a second call `update(1, false)` leaves that
screen on the display. -/
theorem update_draws_while_disabled :
    (update (fun _ => emptyApp) 1 false
        { prev_enabled := false, prev_app := 0, calls := [] }).calls
      = appScreenCalls (fun _ => emptyApp) 1 ∧
    (update (fun _ => emptyApp) 1 false
        { prev_enabled := false, prev_app := 0, calls := [] }).calls.any Call.draws = true ∧
    (update (fun _ => emptyApp) 1 false
        { prev_enabled := false, prev_app := 0, calls := [] }).prev_enabled = false ∧
    (update (fun _ => emptyApp) 1 false
        (update (fun _ => emptyApp) 1 false
          { prev_enabled := false, prev_app := 0, calls := [] })).calls
      = appScreenCalls (fun _ => emptyApp) 1 := by
  refine ⟨rfl, by decide, rfl, rfl⟩

end Display
